import Mathlib

/-!
Verification of the Flappy multiplayer netcode core.

The Python sources are shallowly embedded as executable Lean definitions.
All floating-point quantities (`float` in Python) are modelled as exact
rationals (`ℚ`); the 4-decimal rounding that the code applies after every
physics step (`round(x, 4)`) is modelled by `round4` below.  Python's
`round` rounds half-to-even on binary doubles; none of the concrete values
appearing in this development sits on a half-tie at the 5th decimal, so the
choice of tie-breaking is immaterial here and we use Mathlib's `round`
(half-up).

Module map:
  constants.py        -> the numeric constants below
  data_models.py      -> `Player` (network `addr` field omitted: it is an
                         opaque transport address never read by the core)
  physics_core.py     -> `applyGravityAndMovement`, `checkCollision`,
                         `respawn`
  physics_server.py   -> `EngineState`, `spawnPipe`, `stepPipePhase`,
                         `serverStepPlayer`, `serverStep`
  physics_engine.py   -> `PlayerState`, `PipeState`, `ceApplyGravity`,
                         `ceStepPlayer` (the module `flappy_client.py`
                         actually imports)
  physics_client.py   -> `pcStepPlayer`
  flappy_client.py    -> `ClientState`, `sendFlap`, `tickLocal`,
                         `purgePending`, `truncatePending`, `replayPending`,
                         `reconcile`
  server.py           -> `handleInput`, `ackTrajectory`
-/

namespace Flappy

/-! ### constants.py -/

def SCREEN_WIDTH : ℚ := 480
def SCREEN_HEIGHT : ℚ := 800
def BIRD_X : ℚ := 100
/-- `RESPAWN_Y = SCREEN_HEIGHT // 2 = 400` (integer floor division). -/
def RESPAWN_Y : ℚ := 400
def PIPE_WIDTH : ℚ := 80
def PIPE_GAP : ℚ := 200
def PIPE_SPEED_PPS : ℚ := 250
def PIPE_SPAWN_INTERVAL_TICKS : ℤ := 90
def GRAVITY_ACCEL : ℚ := 1800
def JUMP_IMPULSE : ℚ := -600
def MAX_FALL_VELOCITY : ℚ := 1000
def BIRD_RADIUS : ℚ := 20
/-- `TICK_TIME = 1.0 / SERVER_TICK_RATE` with `SERVER_TICK_RATE = 30`. -/
def TICK_TIME : ℚ := 1 / 30

/-- Python's `round(x, 4)`: round to 4 decimal places. -/
def round4 (q : ℚ) : ℚ := (round (q * 10000) : ℚ) / 10000

/-! ### data_models.py -/

/-- `data_models.Pipe` (and `ClientPipeState`, which has the same two
fields `x`, `gap_y`). -/
structure Pipe where
  x : ℚ
  gapY : ℚ
deriving DecidableEq

/-- `data_models.Player`, the authoritative server-side player record.
The `addr : Optional[tuple]` network address is omitted (never read by the
simulation). -/
structure Player where
  y : ℚ
  velocity : ℚ
  alive : Bool
  score : ℤ
  pendingFlap : Bool
  lastSeqReceived : ℤ
deriving DecidableEq

/-! ### physics_core.py -/

/-- `PhysicsCore.apply_gravity_and_movement`: one fixed-timestep kinematic
update; returns the new `(y, velocity)`, each rounded to 4 decimals. -/
def applyGravityAndMovement (y velocity : ℚ) : ℚ × ℚ :=
  let v1 := min (velocity + GRAVITY_ACCEL * TICK_TIME) MAX_FALL_VELOCITY
  let y1 := y + v1 * TICK_TIME
  (round4 y1, round4 v1)

/-- `PIPE_GAP // 2` (Python integer floor division), which is exactly 100. -/
def pipeGapHalf : ℚ := ((200 : ℤ) / 2 : ℤ)

/-- `PhysicsCore.check_collision`: floor/ceiling test (boundary inclusive),
then for each pipe whose radius-inflated horizontal span strictly contains
`BIRD_X`, death unless `y` lies strictly inside the gap. -/
def checkCollision (y : ℚ) (pipes : List Pipe) : Bool :=
  if y ≤ 0 ∨ SCREEN_HEIGHT ≤ y then true
  else
    pipes.any fun p =>
      if p.x - BIRD_RADIUS < BIRD_X ∧ BIRD_X < p.x + PIPE_WIDTH + BIRD_RADIUS then
        !(decide (p.gapY - pipeGapHalf < y) && decide (y < p.gapY + pipeGapHalf))
      else false

/-- `PhysicsCore.respawn`: reset to spawn height, zero velocity, alive,
score zero. -/
def respawn (p : Player) : Player :=
  { p with y := RESPAWN_Y, velocity := 0, alive := true, score := 0 }

/-! ### physics_server.py -/

/-- `pipe_delta_x = PIPE_SPEED_PPS * DT` (NOT rounded). -/
def pipeDeltaX : ℚ := PIPE_SPEED_PPS * TICK_TIME

/-- The pipe-owning part of `ServerEngine`'s state. -/
structure EngineState where
  tickCount : ℤ
  pipes : List Pipe
  pipeSpawnCounter : ℤ
deriving DecidableEq

/-- `ServerEngine._spawn_pipe`.  `gapChoice` stands for the value returned
by `random.randint(PIPE_GAP // 2, SCREEN_HEIGHT - PIPE_GAP // 2)`, i.e. an
integer in `[100, 700]`; the randomness is threaded as an explicit oracle
argument. -/
def spawnPipe (s : EngineState) (gapChoice : ℤ) : EngineState :=
  { s with pipes := s.pipes ++ [⟨SCREEN_WIDTH, (gapChoice : ℚ)⟩], pipeSpawnCounter := 0 }

/-- The pipe phase of `ServerEngine.step` (lines 37-50): increment the tick
counter, increment the spawn countdown, spawn when it reaches the interval,
then move every pipe (including a just-spawned one) left by `pipeDeltaX`
with 4-decimal rounding, and keep only pipes with `x > -PIPE_WIDTH`. -/
def stepPipePhase (s : EngineState) (gapChoice : ℤ) : EngineState :=
  let s1 : EngineState :=
    { s with tickCount := s.tickCount + 1, pipeSpawnCounter := s.pipeSpawnCounter + 1 }
  let s2 := if s1.pipeSpawnCounter ≥ PIPE_SPAWN_INTERVAL_TICKS then spawnPipe s1 gapChoice else s1
  let moved := s2.pipes.map fun p => { p with x := round4 (p.x - pipeDeltaX) }
  { s2 with pipes := moved.filter fun p => decide (p.x > -PIPE_WIDTH) }

/-- The per-player part of `ServerEngine.step` (lines 52-74), applied after
the pipe phase with the already-moved pipe list.  A dead player with a flap
input is respawned; a dead player without one is left untouched; a living
player gets the flap impulse, gravity/movement, the collision test, and one
score increment for every pipe that crossed `BIRD_X` during this tick. -/
def serverStepPlayer (p : Player) (flap : Bool) (pipes : List Pipe) : Player :=
  if !p.alive then
    if flap then respawn p else p
  else
    let v0 := if flap then JUMP_IMPULSE else p.velocity
    let yv := applyGravityAndMovement p.y v0
    let alive1 := !(checkCollision yv.1 pipes)
    let crossings : ℤ :=
      ((pipes.filter fun pp => decide (pp.x < BIRD_X) && decide (BIRD_X ≤ pp.x + pipeDeltaX)).length : ℤ)
    { p with y := yv.1, velocity := yv.2, alive := alive1, score := p.score + crossings }

/-- `ServerEngine.step` in full: pipe phase, then every player stepped
against the post-move pipe list.  Players are an association list from
username to `Player`; `flaps` gives each player's flap input for the tick. -/
def serverStep (s : EngineState) (players : List (String × Player))
    (flaps : String → Bool) (gapChoice : ℤ) : EngineState × List (String × Player) :=
  let s' := stepPipePhase s gapChoice
  (s', players.map fun up => (up.1, serverStepPlayer up.2 (flaps up.1) s'.pipes))

/-! ### physics_engine.py — the module `flappy_client.py` actually imports.
This is an older, per-tick-constant revision of the physics: gravity 0.45
per tick, flap impulse -9, terminal velocity 15, no rounding, and a pipe
span test without the bird radius. -/

/-- `physics_engine.PlayerState` (also the shape of
`data_models.ClientPlayerState`). -/
structure PlayerState where
  username : String
  y : ℚ
  v : ℚ
  alive : Bool
  score : ℤ
deriving DecidableEq

/-- `physics_engine.PipeState`.  Here `gap_y` is the TOP of the gap
(the gap is `(gap_y, gap_y + PIPE_GAP)`), unlike `data_models.Pipe` where
it is the gap centre. -/
structure PipeState where
  x : ℚ
  gapY : ℚ
deriving DecidableEq

/-- `PlayerState(username)` with default fields:
`y = SCREEN_HEIGHT // 2 = 400`, `v = 0`, alive, score 0. -/
def initPlayerState (username : String) : PlayerState :=
  ⟨username, 400, 0, true, 0⟩

/-- `ClientEngine.apply_gravity` of physics_engine.py: add 0.45 and clamp
to the terminal velocity 15. -/
def ceApplyGravity (v : ℚ) : ℚ :=
  let v1 := v + 9 / 20
  if v1 > 15 then 15 else v1

/-- `ClientEngine.flap` of physics_engine.py. -/
def ceFlapStrength : ℚ := -9

/-- `ClientEngine.step_player` of physics_engine.py (lines 140-157): the
client's actual predictive per-tick step.  Dead players are skipped; a flap
assigns `v = -9`; gravity is 0.45 per tick with terminal velocity 15; no
rounding; floor/ceiling boundary-inclusive; pipe span `(x, x + 80)` with no
radius; gap `(gap_y, gap_y + 200)`. -/
def ceStepPlayer (p : PlayerState) (flap : Bool) (pipes : List PipeState) : PlayerState :=
  if !p.alive then p
  else
    let v0 := if flap then ceFlapStrength else p.v
    let v1 := ceApplyGravity v0
    let y1 := p.y + v1
    let hitWall := decide (y1 ≤ 0) || decide (y1 ≥ 800)
    let hitPipe := pipes.any fun pp =>
      decide (pp.x < 100) && decide ((100 : ℚ) < pp.x + 80) &&
        !(decide (pp.gapY < y1) && decide (y1 < pp.gapY + 200))
    { p with y := y1, v := v1, alive := !(hitWall || hitPipe) }

/-! ### physics_client.py — the newer client engine built on `PhysicsCore`
(present in the repository but not imported by `flappy_client.py`). -/

/-- `ClientEngine.step_player` of physics_client.py: identical kinematics
and collision to the server (shared `PhysicsCore`), plus a death clamp:
when the step kills the player, `y` is clamped into `[0, SCREEN_HEIGHT]`
and `v` is zeroed. -/
def pcStepPlayer (p : PlayerState) (flap : Bool) (pipes : List Pipe) : PlayerState :=
  if !p.alive then p
  else
    let v0 := if flap then JUMP_IMPULSE else p.v
    let yv := applyGravityAndMovement p.y v0
    if checkCollision yv.1 pipes then
      { p with y := max (min yv.1 SCREEN_HEIGHT) 0, v := 0, alive := false }
    else
      { p with y := yv.1, v := yv.2, alive := true }

/-! ### flappy_client.py — ClientGame -/

/-- `flappy_client.PendingInput`. -/
structure PendingInput where
  seq : ℤ
  flap : Bool
deriving DecidableEq

/-- An `input` wire message as built by `NetworkClient.send_input`
(the constant `username` field is implicit). -/
structure InputMsg where
  flap : Bool
  seq : ℤ
deriving DecidableEq

/-- The local-player-relevant part of `ClientGame`'s state: the input
sequencer (`next_input_seq`, `pending_inputs`), the local predicted player
(`local_players[self.username]`, absent until first touched), and the pipe
list.  Remote players' entries never feed back into these fields. -/
structure ClientState where
  username : String
  nextInputSeq : ℤ
  pendingInputs : List PendingInput
  localPlayer : Option PlayerState
  pipes : List PipeState
deriving DecidableEq

/-- `ClientGame.apply_input_local`: ensure the local player record exists,
then run one predictive step with the given flap flag. -/
def applyInputLocal (s : ClientState) (flap : Bool) : ClientState :=
  let stepped := ceStepPlayer (s.localPlayer.getD (initPlayerState s.username)) flap s.pipes
  { s with localPlayer := some stepped }

/-- The body of `ClientGame.send_flap` past the dead-check: take the next
sequence number, increment it, append `(seq, True)` to the pending buffer,
send `(flap=True, seq)`, and apply the prediction locally. -/
def sendFlapGo (s : ClientState) : ClientState × Option InputMsg :=
  let seq := s.nextInputSeq
  let s1 : ClientState :=
    { s with nextInputSeq := seq + 1, pendingInputs := s.pendingInputs ++ [⟨seq, true⟩] }
  (applyInputLocal s1 true, some ⟨true, seq⟩)

/-- `ClientGame.send_flap`: a no-op when the local player exists and is
dead; otherwise issue, buffer, transmit and locally apply one flap input.
The second component is the datagram sent (`none` = nothing sent). -/
def sendFlap (s : ClientState) : ClientState × Option InputMsg :=
  match s.localPlayer with
  | some lp => if !lp.alive then (s, none) else sendFlapGo s
  | none => sendFlapGo s

/-- `ClientGame.tick_local`: one fixed-tick prediction step with
`flap = False`; issues no input and sends nothing. -/
def tickLocal (s : ClientState) : ClientState :=
  let stepped := ceStepPlayer (s.localPlayer.getD (initPlayerState s.username)) false s.pipes
  { s with localPlayer := some stepped }

/-- The snapshot's entry for the local actor, as read by
`reconcile_with_authoritative`. -/
structure AuthPlayer where
  y : ℚ
  v : ℚ
  alive : Bool
  score : ℤ
  lastSeq : ℤ
deriving DecidableEq

/-- The purge step of `reconcile_with_authoritative` (lines 262-268):
when `auth_last_seq > 0` and the buffer is non-empty, keep only inputs
with `seq > auth_last_seq`. -/
def purgePending (pending : List PendingInput) (lastSeq : ℤ) : List PendingInput :=
  if lastSeq > 0 ∧ pending ≠ [] then
    pending.filter fun pi => decide (lastSeq < pi.seq)
  else pending

/-- The overflow cleanup of `reconcile_with_authoritative` (lines 298-300):
`pending_inputs[-100:]` once the buffer exceeds 200 entries. -/
def truncatePending (pending : List PendingInput) : List PendingInput :=
  if pending.length > 200 then pending.drop (pending.length - 100) else pending

/-- The replay loop of `reconcile_with_authoritative` (lines 279-280):
re-run the predictive step for each remaining pending input in order. -/
def replayPending (base : PlayerState) (pending : List PendingInput)
    (pipes : List PipeState) : PlayerState :=
  pending.foldl (fun pl pi => ceStepPlayer pl pi.flap pipes) base

/-- `ClientGame.reconcile_with_authoritative` (lines 225-300), for a
snapshot that contains an entry for the local actor (when it does not, the
method returns with no change).  Purge acked inputs; if position or
velocity diverges beyond the thresholds (1.5 and 0.5), rebase on the
authoritative `(y, v, alive, score)` and replay the remaining pending
inputs against the snapshot's pipes; otherwise keep the predicted `(y, v)`
and adopt only the authoritative `alive` and `score`.  Pipes are replaced
wholesale and the buffer is truncated if it exceeds 200 entries. -/
def reconcile (s : ClientState) (authP : AuthPlayer) (authPipes : List PipeState) :
    ClientState :=
  let pending1 := purgePending s.pendingInputs authP.lastSeq
  let pred := s.localPlayer.getD (initPlayerState s.username)
  let localNew :=
    if |pred.y - authP.y| > 3 / 2 ∨ |pred.v - authP.v| > 1 / 2 then
      replayPending ⟨s.username, authP.y, authP.v, authP.alive, authP.score⟩
        pending1 authPipes
    else
      { pred with alive := authP.alive, score := authP.score }
  { s with localPlayer := some localNew, pendingInputs := truncatePending pending1,
           pipes := authPipes }

/-! ### server.py — FlappyServer._handle_input -/

/-- `FlappyServer._handle_input` (lines 135-140) for a logged-in player:
overwrite the pending flap and the last-received sequence number with the
message's fields (a plain last-writer-wins assignment, no maximum). -/
def handleInput (p : Player) (m : InputMsg) : Player :=
  { p with pendingFlap := m.flap, lastSeqReceived := m.seq }

/-- The successive values of `last_seq_received` (the `lastAckedSeq`
carried in snapshots) as a sequence of input messages is handled in order:
the initial value followed by the value after each message. -/
def ackTrajectory (p : Player) (ms : List InputMsg) : List ℤ :=
  (List.scanl handleInput p ms).map Player.lastSeqReceived

/-! ## Helper lemmas -/

/-- Membership survives the overflow truncation: `pending_inputs[-100:]` is
a sub-collection of the buffer it truncates. -/
lemma mem_truncatePending {pending : List PendingInput} {pi : PendingInput}
    (h : pi ∈ truncatePending pending) : pi ∈ pending := by
  unfold truncatePending at h
  split at h
  · exact List.drop_subset _ _ h
  · exact h

/-- Anything left after the purge was in the original buffer, and either
its sequence exceeds the ack or the ack was not positive (purge skipped). -/
lemma mem_purgePending {pending : List PendingInput} {lastSeq : ℤ} {pi : PendingInput}
    (h : pi ∈ purgePending pending lastSeq) :
    pi ∈ pending ∧ (lastSeq < pi.seq ∨ lastSeq ≤ 0) := by
  unfold purgePending at h
  split at h
  case isTrue hc =>
    rw [List.mem_filter, decide_eq_true_eq] at h
    exact ⟨h.1, Or.inl h.2⟩
  case isFalse hc =>
    refine ⟨h, Or.inr ?_⟩
    by_contra hpos
    push_neg at hpos
    exact hc ⟨hpos, by rintro rfl; simp at h⟩

/-- The pending buffer after reconciliation is exactly the purge followed
by the overflow truncation. -/
lemma reconcile_pendingInputs (s : ClientState) (authP : AuthPlayer)
    (authPipes : List PipeState) :
    (reconcile s authP authPipes).pendingInputs
      = truncatePending (purgePending s.pendingInputs authP.lastSeq) := rfl

/-! ## Claims -/

/-- C7: from `y = 400`, `v = 0` with no flap and no obstacles, one physics
step yields exactly `v = 60`, `y = 402` (after 4-decimal rounding) and no
death — both for the core kinematics/collision pair and for the full
authoritative per-player step. -/
theorem physicsStep_scenario :
    applyGravityAndMovement 400 0 = (402, 60) ∧
    checkCollision 402 [] = false ∧
    serverStepPlayer ⟨400, 0, true, 0, false, 0⟩ false [] = ⟨402, 60, true, 0, false, 0⟩ := by
  refine ⟨?_, ?_, ?_⟩
  · norm_num [applyGravityAndMovement, round4, round_eq, GRAVITY_ACCEL, TICK_TIME,
      MAX_FALL_VELOCITY, min_def, Prod.ext_iff]
  · norm_num [checkCollision, SCREEN_HEIGHT]
  · norm_num [serverStepPlayer, applyGravityAndMovement, round4, round_eq, GRAVITY_ACCEL,
      TICK_TIME, MAX_FALL_VELOCITY, min_def, checkCollision, SCREEN_HEIGHT, JUMP_IMPULSE]

/-- C1: the client's actual predictive step (`physics_engine.ClientEngine`,
the module `flappy_client.py` imports) and the authoritative per-actor step
give different `(y, v)` on the very same input `y = 400, v = 0`, no flap,
no obstacles: the client integrates gravity `0.45` per tick with no
rounding while the authority integrates `1800 * (1/30) = 60` with 4-decimal
rounding.  The identical-step claim fails at this input. -/
theorem clientServerPhysicsDiffer :
    ceStepPlayer ⟨"u", 400, 0, true, 0⟩ false [] = ⟨"u", 400 + 9 / 20, 9 / 20, true, 0⟩ ∧
    serverStepPlayer ⟨400, 0, true, 0, false, 0⟩ false [] = ⟨402, 60, true, 0, false, 0⟩ ∧
    (400 + 9 / 20 : ℚ) ≠ 402 ∧ (9 / 20 : ℚ) ≠ 60 := by
  refine ⟨?_, ?_, by norm_num, by norm_num⟩
  · norm_num [ceStepPlayer, ceApplyGravity, ceFlapStrength]
  · norm_num [serverStepPlayer, applyGravityAndMovement, round4, round_eq, GRAVITY_ACCEL,
      TICK_TIME, MAX_FALL_VELOCITY, min_def, checkCollision, SCREEN_HEIGHT, JUMP_IMPULSE]

/-- C5 counterexample: the authoritative step kills the player at
`y = 798, v = 0` (it integrates to `y = 800 ≥ worldHeight`) but leaves the
velocity at its integrated value `60`, not `0`. -/
theorem serverDeathKeepsVelocity :
    (serverStepPlayer ⟨798, 0, true, 0, false, 0⟩ false []).alive = false ∧
    (serverStepPlayer ⟨798, 0, true, 0, false, 0⟩ false []).velocity = 60 ∧
    (60 : ℚ) ≠ 0 := by
  have h : serverStepPlayer ⟨798, 0, true, 0, false, 0⟩ false []
      = ⟨800, 60, false, 0, false, 0⟩ := by
    norm_num [serverStepPlayer, applyGravityAndMovement, round4, round_eq, GRAVITY_ACCEL,
      TICK_TIME, MAX_FALL_VELOCITY, min_def, checkCollision, SCREEN_HEIGHT, JUMP_IMPULSE]
  refine ⟨by rw [h], by rw [h], by norm_num⟩

/-- C5 amended: the authoritative step does not zero a dying actor's
velocity; a dead actor is instead left completely untouched (frozen,
velocity included) on every later tick without a flap, a flap while dead
respawns it with velocity `0`, and it is the client-side engine of
`physics_client.py` that zeroes velocity in the tick an actor dies. -/
theorem deadFreezeAndClientClamp :
    (∀ (p : Player) (pipes : List Pipe), p.alive = false →
      serverStepPlayer p false pipes = p) ∧
    (∀ (p : Player) (pipes : List Pipe), p.alive = false →
      serverStepPlayer p true pipes = respawn p ∧ (respawn p).velocity = 0) ∧
    (∀ (p : PlayerState) (flap : Bool) (pipes : List Pipe), p.alive = true →
      (pcStepPlayer p flap pipes).alive = false → (pcStepPlayer p flap pipes).v = 0) := by
  refine ⟨?_, ?_, ?_⟩
  · intro p pipes h
    simp [serverStepPlayer, h]
  · intro p pipes h
    exact ⟨by simp [serverStepPlayer, h], rfl⟩
  · intro p flap pipes halive hdead
    by_cases hc :
        checkCollision (applyGravityAndMovement p.y (if flap then JUMP_IMPULSE else p.v)).1 pipes
    · simp [pcStepPlayer, halive, hc]
    · simp [pcStepPlayer, halive, hc] at hdead

/-- C5 amended, witness: a dead actor with velocity 60 and no flap is left
unchanged by the authoritative step. -/
theorem deadFreezeAndClientClampWitness :
    (⟨400, 60, false, 3, false, 0⟩ : Player).alive = false ∧
    serverStepPlayer ⟨400, 60, false, 3, false, 0⟩ false [] = ⟨400, 60, false, 3, false, 0⟩ :=
  ⟨rfl, deadFreezeAndClientClamp.1 ⟨400, 60, false, 3, false, 0⟩ [] rfl⟩

/-- C6 counterexample: a pipe at `x = 120` has closed span
`[x - R, x + width + R] = [100, 220]` containing `BIRD_X = 100`, and
`y = 200` is outside the gap around `gapY = 400`, yet the collision test
returns `false` (the code's span test is strict); and a full authoritative
step from `y = 0, v = 0` with no obstacles reports no death at all — it
integrates to `y = 2` before testing collision, so nothing "died = true
immediately, before integration" happens. -/
theorem collisionClaimCounterexample :
    ((120 : ℚ) - BIRD_RADIUS ≤ BIRD_X ∧ BIRD_X ≤ (120 : ℚ) + PIPE_WIDTH + BIRD_RADIUS ∧
      ¬((400 : ℚ) - pipeGapHalf < 200 ∧ (200 : ℚ) < 400 + pipeGapHalf) ∧
      checkCollision 200 [⟨120, 400⟩] = false) ∧
    (serverStepPlayer ⟨0, 0, true, 0, false, 0⟩ false []).alive = true := by
  refine ⟨⟨by norm_num [BIRD_RADIUS, BIRD_X], by norm_num [BIRD_RADIUS, BIRD_X, PIPE_WIDTH],
    by norm_num [pipeGapHalf], ?_⟩, ?_⟩
  · norm_num [checkCollision, SCREEN_HEIGHT, BIRD_RADIUS, BIRD_X, PIPE_WIDTH, pipeGapHalf]
  · have h : serverStepPlayer ⟨0, 0, true, 0, false, 0⟩ false []
        = ⟨2, 60, true, 0, false, 0⟩ := by
      norm_num [serverStepPlayer, applyGravityAndMovement, round4, round_eq, GRAVITY_ACCEL,
        TICK_TIME, MAX_FALL_VELOCITY, min_def, checkCollision, SCREEN_HEIGHT, JUMP_IMPULSE]
    rw [h]

/-- C6 amended: the collision test returns `died = true` iff `y ≤ 0`, or
`y ≥ worldHeight` (boundary inclusive, regardless of the obstacle list), or
some obstacle whose OPEN horizontal span `(x - R, x + width + R)` strictly
contains the actor's fixed x has `y` outside the open gap
`(gapY - gap/2, gapY + gap/2)`; moreover the boundary-inclusive `y = 0`
test holds for the collision predicate applied directly, while the full
per-actor step from `y = 0, v = 0` integrates first (to `y = 2`) and hence
reports no death. -/
theorem checkCollisionSpec :
    (∀ (y : ℚ) (pipes : List Pipe), checkCollision y pipes = true ↔
      (y ≤ 0 ∨ SCREEN_HEIGHT ≤ y ∨ ∃ p ∈ pipes,
        (p.x - BIRD_RADIUS < BIRD_X ∧ BIRD_X < p.x + PIPE_WIDTH + BIRD_RADIUS) ∧
        ¬(p.gapY - pipeGapHalf < y ∧ y < p.gapY + pipeGapHalf))) ∧
    (∀ pipes : List Pipe, checkCollision 0 pipes = true) ∧
    ((serverStepPlayer ⟨0, 0, true, 0, false, 0⟩ false []).alive = true ∧
      (serverStepPlayer ⟨0, 0, true, 0, false, 0⟩ false []).y = 2) := by
  have hchar : ∀ (y : ℚ) (pipes : List Pipe), checkCollision y pipes = true ↔
      (y ≤ 0 ∨ SCREEN_HEIGHT ≤ y ∨ ∃ p ∈ pipes,
        (p.x - BIRD_RADIUS < BIRD_X ∧ BIRD_X < p.x + PIPE_WIDTH + BIRD_RADIUS) ∧
        ¬(p.gapY - pipeGapHalf < y ∧ y < p.gapY + pipeGapHalf)) := by
    intro y pipes
    unfold checkCollision
    by_cases h : y ≤ 0 ∨ SCREEN_HEIGHT ≤ y
    · simp only [if_pos h]
      constructor
      · intro _
        rcases h with h | h
        · exact Or.inl h
        · exact Or.inr (Or.inl h)
      · intro _; trivial
    · simp only [if_neg h, List.any_eq_true]
      push_neg at h
      constructor
      · rintro ⟨p, hp, hcond⟩
        refine Or.inr (Or.inr ⟨p, hp, ?_⟩)
        by_cases hspan : p.x - BIRD_RADIUS < BIRD_X ∧ BIRD_X < p.x + PIPE_WIDTH + BIRD_RADIUS
        · rw [if_pos hspan] at hcond
          simp only [Bool.not_eq_true', Bool.and_eq_false_iff, decide_eq_false_iff_not] at hcond
          refine ⟨hspan, ?_⟩
          rintro ⟨h1, h2⟩
          rcases hcond with hc | hc
          · exact hc h1
          · exact hc h2
        · rw [if_neg hspan] at hcond
          exact absurd hcond (by simp)
      · rintro (h1 | h1 | ⟨p, hp, hspan, hgap⟩)
        · exact absurd h1 (not_le.mpr h.1)
        · exact absurd h1 (not_le.mpr h.2)
        · refine ⟨p, hp, ?_⟩
          rw [if_pos hspan]
          simp only [Bool.not_eq_true', Bool.and_eq_false_iff, decide_eq_false_iff_not]
          by_contra hb
          push_neg at hb
          exact hgap ⟨hb.1, hb.2⟩
  refine ⟨hchar, ?_, ?_⟩
  · intro pipes
    exact (hchar 0 pipes).mpr (Or.inl le_rfl)
  · have h : serverStepPlayer ⟨0, 0, true, 0, false, 0⟩ false []
        = ⟨2, 60, true, 0, false, 0⟩ := by
      norm_num [serverStepPlayer, applyGravityAndMovement, round4, round_eq, GRAVITY_ACCEL,
        TICK_TIME, MAX_FALL_VELOCITY, min_def, checkCollision, SCREEN_HEIGHT, JUMP_IMPULSE]
    rw [h]
    exact ⟨rfl, rfl⟩

/-- C6 amended, witness: the characterization instantiated at a pipe whose
open span contains the actor and whose gap excludes `y = 200`. -/
theorem checkCollisionSpecWitness :
    checkCollision 0 [] = true ∧ checkCollision 200 [⟨119, 400⟩] = true :=
  ⟨checkCollisionSpec.2.1 [],
    (checkCollisionSpec.1 200 [⟨119, 400⟩]).mpr
      (Or.inr (Or.inr ⟨⟨119, 400⟩, by simp, by norm_num [BIRD_RADIUS, BIRD_X, PIPE_WIDTH],
        by norm_num [pipeGapHalf]⟩))⟩

/-- C2 counterexample: a client fixed tick (`tick_local`) issues no
`PendingInput` at all — the sequence counter and the pending buffer are
untouched — refuting "on every client fixed tick, exactly one PendingInput
is issued". -/
theorem tickLocalIssuesNoInput :
    (tickLocal ⟨"a", 1, [], some ⟨"a", 400, 0, true, 0⟩, []⟩).nextInputSeq = 1 ∧
    (tickLocal ⟨"a", 1, [], some ⟨"a", 400, 0, true, 0⟩, []⟩).pendingInputs = [] :=
  ⟨rfl, rfl⟩

/-- C2 amended: inputs are issued only by the flap action, not once per
fixed tick.  When the local player is alive, `send_flap` issues the current
`next_input_seq` (so consecutive flaps get strictly increasing sequence
numbers starting at the initial value 1), always with `flap = true`,
appends it to the pending buffer before transmission, and transmits the
same `(seq, flap)`; the per-tick `tick_local` issues nothing and sends
nothing. -/
theorem sendFlapSequencer (s : ClientState) (lp : PlayerState)
    (hlp : s.localPlayer = some lp) (halive : lp.alive = true) :
    (sendFlap s).1.nextInputSeq = s.nextInputSeq + 1 ∧
    (sendFlap s).1.pendingInputs = s.pendingInputs ++ [⟨s.nextInputSeq, true⟩] ∧
    (sendFlap s).2 = some ⟨true, s.nextInputSeq⟩ ∧
    (tickLocal s).nextInputSeq = s.nextInputSeq ∧
    (tickLocal s).pendingInputs = s.pendingInputs := by
  refine ⟨?_, ?_, ?_, rfl, rfl⟩ <;>
    simp [sendFlap, hlp, halive, sendFlapGo, applyInputLocal]

/-- C2 amended, witness: the sequencer facts at a concrete alive state. -/
theorem sendFlapSequencerWitness :
    (sendFlap ⟨"a", 1, [], some ⟨"a", 400, 0, true, 0⟩, []⟩).1.nextInputSeq = 1 + 1 ∧
    (sendFlap ⟨"a", 1, [], some ⟨"a", 400, 0, true, 0⟩, []⟩).1.pendingInputs
      = [] ++ [⟨1, true⟩] ∧
    (sendFlap ⟨"a", 1, [], some ⟨"a", 400, 0, true, 0⟩, []⟩).2 = some ⟨true, 1⟩ ∧
    (tickLocal ⟨"a", 1, [], some ⟨"a", 400, 0, true, 0⟩, []⟩).nextInputSeq = 1 ∧
    (tickLocal ⟨"a", 1, [], some ⟨"a", 400, 0, true, 0⟩, []⟩).pendingInputs = [] :=
  sendFlapSequencer ⟨"a", 1, [], some ⟨"a", 400, 0, true, 0⟩, []⟩ ⟨"a", 400, 0, true, 0⟩ rfl rfl

/-- C10: when the local predicted player exists and is dead, `send_flap` is
a complete no-op: the state (sequence counter, pending buffer, local
player, pipes) is returned unchanged and no datagram is sent.  Respawn for
a dead player goes only through the explicit `respawn` message bound to the
R key in `run_game`. -/
theorem sendFlapDeadNoop (s : ClientState) (lp : PlayerState)
    (hlp : s.localPlayer = some lp) (hdead : lp.alive = false) :
    sendFlap s = (s, none) := by
  simp [sendFlap, hlp, hdead]

/-- C10, witness: a dead local player at a concrete state makes
`send_flap` the identity with no message. -/
theorem sendFlapDeadNoopWitness :
    sendFlap ⟨"a", 7, [⟨3, true⟩], some ⟨"a", 400, 0, false, 0⟩, []⟩
      = (⟨"a", 7, [⟨3, true⟩], some ⟨"a", 400, 0, false, 0⟩, []⟩, none) :=
  sendFlapDeadNoop _ ⟨"a", 400, 0, false, 0⟩ rfl rfl

/-- C3 counterexample: the local prediction is dead, the snapshot says
alive, the pending buffer holds an unacked input — and after
reconciliation the buffer still holds it (nothing clears the buffer on the
dead-to-alive edge; the code only purges acked inputs). -/
theorem reconcileRespawnCounterexample :
    (⟨"a", 400, 0, false, 0⟩ : PlayerState).alive = false ∧
    (⟨400, 0, true, 0, 0⟩ : AuthPlayer).alive = true ∧
    (reconcile ⟨"a", 6, [⟨5, true⟩], some ⟨"a", 400, 0, false, 0⟩, []⟩
      ⟨400, 0, true, 0, 0⟩ []).pendingInputs = [⟨5, true⟩] ∧
    ([⟨5, true⟩] : List PendingInput) ≠ [] := by
  refine ⟨rfl, rfl, ?_, by simp⟩
  norm_num [reconcile, purgePending, truncatePending, replayPending]

/-- C3 amended: on a dead-local/alive-snapshot reconciliation whose
divergence is within the thresholds, the client adopts only the
authoritative `alive` (coming back alive) and `score`, keeps its predicted
`y` and `v`, and the pending buffer is NOT cleared: with no new acks and no
overflow it is returned unchanged, whatever it contains. -/
theorem reconcileRespawnEdge (s : ClientState) (authP : AuthPlayer) (authPipes : List PipeState)
    (lp : PlayerState) (hlp : s.localPlayer = some lp) (_hdead : lp.alive = false)
    (hauth : authP.alive = true)
    (hy : |lp.y - authP.y| ≤ 3 / 2) (hv : |lp.v - authP.v| ≤ 1 / 2)
    (hack : authP.lastSeq ≤ 0) (hlen : s.pendingInputs.length ≤ 200) :
    reconcile s authP authPipes =
      { s with
        localPlayer := some { lp with alive := true, score := authP.score },
        pipes := authPipes } := by
  have h1 : ¬ (authP.lastSeq > 0) := not_lt.mpr hack
  have h2 : ¬ (|lp.y - authP.y| > 3 / 2) := not_lt.mpr hy
  have h3 : ¬ (|lp.v - authP.v| > 1 / 2) := not_lt.mpr hv
  have h4 : ¬ (s.pendingInputs.length > 200) := not_lt.mpr hlen
  simp [reconcile, purgePending, truncatePending, hlp, h1, h2, h3, h4, hauth]
  intro h
  exact absurd h (by simpa using h3)

/-- C3 amended, witness: the dead-to-alive reconciliation at a concrete
state with a non-empty buffer leaves the buffer untouched. -/
theorem reconcileRespawnEdgeWitness :
    reconcile ⟨"a", 6, [⟨5, true⟩], some ⟨"a", 400, 0, false, 0⟩, []⟩
      ⟨400, 0, true, 0, 0⟩ [] =
      { username := "a", nextInputSeq := 6, pendingInputs := [⟨5, true⟩],
        localPlayer := some ⟨"a", 400, 0, true, 0⟩, pipes := [] } :=
  reconcileRespawnEdge _ _ _ ⟨"a", 400, 0, false, 0⟩ rfl rfl rfl
    (by norm_num) (by norm_num) (by norm_num) (by norm_num)

/-- C4: after any reconciliation against a snapshot entry for the local
actor, no buffered input has `sequence ≤ lastAckedSeq`, provided every
buffered sequence is at least 1 (which the sequencer guarantees: sequences
start at 1).  The overflow truncation keeps a suffix of the purged buffer,
so it cannot reintroduce an acked input. -/
theorem reconcilePurgesAcked (s : ClientState) (authP : AuthPlayer) (authPipes : List PipeState)
    (hseq : ∀ pi ∈ s.pendingInputs, 1 ≤ pi.seq) :
    ∀ pi ∈ (reconcile s authP authPipes).pendingInputs, authP.lastSeq < pi.seq := by
  intro pi hpi
  rw [reconcile_pendingInputs] at hpi
  have h1 := mem_truncatePending hpi
  rcases mem_purgePending h1 with ⟨hmem, hlt | hle⟩
  · exact hlt
  · have := hseq pi hmem
    omega

/-- C4, witness: with buffered sequences 1 and 3 and `lastAckedSeq = 2`,
everything left after reconciliation has sequence above 2. -/
theorem reconcilePurgesAckedWitness :
    (∀ pi ∈ ([⟨1, true⟩, ⟨3, true⟩] : List PendingInput), 1 ≤ pi.seq) ∧
    ∀ pi ∈ (reconcile ⟨"a", 4, [⟨1, true⟩, ⟨3, true⟩], none, []⟩
      ⟨400, 0, true, 0, 2⟩ []).pendingInputs, (2 : ℤ) < pi.seq :=
  ⟨by decide, reconcilePurgesAcked _ ⟨400, 0, true, 0, 2⟩ [] (by decide)⟩

/-- Tick counter of the pipe phase: always exactly one more. -/
lemma stepPipePhase_tickCount (s : EngineState) (g : ℤ) :
    (stepPipePhase s g).tickCount = s.tickCount + 1 := by
  by_cases hc : s.pipeSpawnCounter + 1 ≥ PIPE_SPAWN_INTERVAL_TICKS <;>
    simp [stepPipePhase, spawnPipe, hc]

/-- Spawn countdown of the pipe phase: reset on spawn, else incremented. -/
lemma stepPipePhase_counter (s : EngineState) (g : ℤ) :
    (stepPipePhase s g).pipeSpawnCounter =
      if s.pipeSpawnCounter + 1 ≥ PIPE_SPAWN_INTERVAL_TICKS then 0
      else s.pipeSpawnCounter + 1 := by
  by_cases hc : s.pipeSpawnCounter + 1 ≥ PIPE_SPAWN_INTERVAL_TICKS <;>
    simp [stepPipePhase, spawnPipe, hc]

/-- Pipes after the pipe phase: spawn (if due) happens BEFORE the move and
the drop filter, so a just-spawned pipe is moved in the same tick. -/
lemma stepPipePhase_pipes (s : EngineState) (g : ℤ) :
    (stepPipePhase s g).pipes =
      ((if s.pipeSpawnCounter + 1 ≥ PIPE_SPAWN_INTERVAL_TICKS
          then s.pipes ++ [⟨SCREEN_WIDTH, (g : ℚ)⟩] else s.pipes).map
        (fun p => ⟨round4 (p.x - pipeDeltaX), p.gapY⟩)).filter
        (fun p => decide (p.x > -PIPE_WIDTH)) := by
  by_cases hc : s.pipeSpawnCounter + 1 ≥ PIPE_SPAWN_INTERVAL_TICKS <;>
    simp [stepPipePhase, spawnPipe, hc]

/-- C8 counterexample: on a spawn tick starting from an empty pipe list,
the post-state's only pipe sits at `round4(480 - 250/30) = 471.6667`, not
at the world's right edge `480` — the code spawns first and then moves
every pipe, including the new one, in the same tick. -/
theorem pipeSpawnNotAtRightEdge :
    stepPipePhase ⟨0, [], 89⟩ 400 = ⟨1, [⟨4716667 / 10000, 400⟩], 0⟩ ∧
    (4716667 / 10000 : ℚ) ≠ SCREEN_WIDTH := by
  constructor
  · norm_num [stepPipePhase, spawnPipe, PIPE_SPAWN_INTERVAL_TICKS, SCREEN_WIDTH, pipeDeltaX,
      PIPE_SPEED_PPS, TICK_TIME, PIPE_WIDTH, round4, round_eq, List.filter]
  · norm_num [SCREEN_WIDTH]

/-- C8 amended: each pipe phase increments the tick counter by exactly one;
the spawn countdown is incremented and, once it reaches the interval, one
obstacle (at most one per tick) is created at the right edge with `gapY` in
`[gap/2, worldHeight - gap/2]` and the countdown resets — but the creation
happens BEFORE the movement/drop pass, so at the end of its spawn tick the
new obstacle is already at `round4(worldWidth - speed*Δt)`; every surviving
obstacle satisfies the drop bound `x > -width`. -/
theorem stepPipePhaseSpec (s : EngineState) (g : ℤ)
    (hg1 : 100 ≤ g) (hg2 : g ≤ 700) :
    (stepPipePhase s g).tickCount = s.tickCount + 1 ∧
    (stepPipePhase s g).pipeSpawnCounter =
      (if s.pipeSpawnCounter + 1 ≥ PIPE_SPAWN_INTERVAL_TICKS then 0
       else s.pipeSpawnCounter + 1) ∧
    (stepPipePhase s g).pipes.length ≤ s.pipes.length + 1 ∧
    (∀ p ∈ (stepPipePhase s g).pipes, -PIPE_WIDTH < p.x) ∧
    (s.pipeSpawnCounter + 1 ≥ PIPE_SPAWN_INTERVAL_TICKS →
      (⟨round4 (SCREEN_WIDTH - pipeDeltaX), (g : ℚ)⟩ : Pipe) ∈ (stepPipePhase s g).pipes ∧
      (100 : ℚ) ≤ (g : ℚ) ∧ (g : ℚ) ≤ 700) := by
  refine ⟨stepPipePhase_tickCount s g, stepPipePhase_counter s g, ?_, ?_, ?_⟩
  · rw [stepPipePhase_pipes]
    refine le_trans (List.length_filter_le _ _) ?_
    rw [List.length_map]
    by_cases hc : s.pipeSpawnCounter + 1 ≥ PIPE_SPAWN_INTERVAL_TICKS <;> simp [hc]
  · intro p hp
    rw [stepPipePhase_pipes] at hp
    have := (List.mem_filter.mp hp).2
    simpa using this
  · intro hc
    refine ⟨?_, by exact_mod_cast hg1, by exact_mod_cast hg2⟩
    rw [stepPipePhase_pipes, if_pos hc]
    refine List.mem_filter.mpr ⟨?_, ?_⟩
    · have hmem : (⟨SCREEN_WIDTH, (g : ℚ)⟩ : Pipe) ∈ s.pipes ++ [⟨SCREEN_WIDTH, (g : ℚ)⟩] :=
        List.mem_append_right _ (List.mem_singleton_self _)
      have heq : (⟨round4 (SCREEN_WIDTH - pipeDeltaX), (g : ℚ)⟩ : Pipe)
          = (fun p : Pipe => (⟨round4 (p.x - pipeDeltaX), p.gapY⟩ : Pipe))
              ⟨SCREEN_WIDTH, (g : ℚ)⟩ := rfl
      rw [heq]
      exact List.mem_map_of_mem (fun p : Pipe => (⟨round4 (p.x - pipeDeltaX), p.gapY⟩ : Pipe)) hmem
    · simp only [decide_eq_true_eq]
      norm_num [round4, round_eq, SCREEN_WIDTH, pipeDeltaX, PIPE_SPEED_PPS, TICK_TIME,
        PIPE_WIDTH]

/-- C8 amended, witness: the pipe-phase properties at a concrete spawn
tick. -/
theorem stepPipePhaseSpecWitness :
    (100 : ℤ) ≤ 400 ∧ (400 : ℤ) ≤ 700 ∧
    (stepPipePhase ⟨0, [], 89⟩ 400).tickCount = 0 + 1 ∧
    (⟨round4 (SCREEN_WIDTH - pipeDeltaX), ((400 : ℤ) : ℚ)⟩ : Pipe)
      ∈ (stepPipePhase ⟨0, [], 89⟩ 400).pipes :=
  ⟨by norm_num, by norm_num,
    (stepPipePhaseSpec ⟨0, [], 89⟩ 400 (by norm_num) (by norm_num)).1,
    ((stepPipePhaseSpec ⟨0, [], 89⟩ 400 (by norm_num) (by norm_num)).2.2.2.2
      (by norm_num [PIPE_SPAWN_INTERVAL_TICKS])).1⟩

/-- The ack values the authority would report are exactly the initial value
followed by each handled message's `seq` field (pure last-writer-wins). -/
lemma ackTrajectory_eq (p : Player) (ms : List InputMsg) :
    ackTrajectory p ms = p.lastSeqReceived :: ms.map InputMsg.seq := by
  induction ms generalizing p with
  | nil => rfl
  | cons m ms ih =>
    unfold ackTrajectory
    rw [List.scanl_cons, List.singleton_append, List.map_cons]
    have h := ih (handleInput p m)
    unfold ackTrajectory at h
    rw [h]
    rfl

/-- C9 counterexample: handling input seq 5 and then input seq 3 (datagram
reordering) makes the reported `last_seq_received` go 0, 5, 3 — which is
not non-decreasing, because `_handle_input` overwrites the field with the
incoming `seq` unconditionally (no maximum). -/
theorem ackNotMonotone :
    ackTrajectory ⟨400, 0, true, 0, false, 0⟩ [⟨false, 5⟩, ⟨false, 3⟩] = [0, 5, 3] ∧
    ¬ List.Chain' (· ≤ ·)
      (ackTrajectory ⟨400, 0, true, 0, false, 0⟩ [⟨false, 5⟩, ⟨false, 3⟩]) := by
  have h : ackTrajectory ⟨400, 0, true, 0, false, 0⟩ [⟨false, 5⟩, ⟨false, 3⟩] = [0, 5, 3] := by
    norm_num [ackTrajectory, handleInput, List.scanl]
  refine ⟨h, ?_⟩
  rw [h]
  simp [List.chain'_cons]

/-- C9 amended: the authority's reported `lastAckedSeq` is pure
last-writer-wins — after each handled input it equals exactly that input's
`seq` — so it is non-decreasing across snapshots precisely when the handled
input messages arrive with non-decreasing sequence numbers (in-order
delivery); under reordering it can decrease. -/
theorem ackLastWriterWins (p : Player) (ms : List InputMsg)
    (h : List.Chain' (· ≤ ·) (p.lastSeqReceived :: ms.map InputMsg.seq)) :
    ackTrajectory p ms = p.lastSeqReceived :: ms.map InputMsg.seq ∧
    List.Chain' (· ≤ ·) (ackTrajectory p ms) :=
  ⟨ackTrajectory_eq p ms, by rw [ackTrajectory_eq]; exact h⟩

/-- C9 amended, witness: with in-order messages seq 1 then seq 2 the ack
trajectory is monotone. -/
theorem ackLastWriterWinsWitness :
    List.Chain' (· ≤ ·) ((0 : ℤ) :: ([⟨true, 1⟩, ⟨false, 2⟩] : List InputMsg).map InputMsg.seq) ∧
    List.Chain' (· ≤ ·) (ackTrajectory ⟨400, 0, true, 0, false, 0⟩ [⟨true, 1⟩, ⟨false, 2⟩]) := by
  have hch : List.Chain' (· ≤ ·)
      ((0 : ℤ) :: ([⟨true, 1⟩, ⟨false, 2⟩] : List InputMsg).map InputMsg.seq) := by
    simp [List.chain'_cons]
  exact ⟨hch, (ackLastWriterWins ⟨400, 0, true, 0, false, 0⟩ [⟨true, 1⟩, ⟨false, 2⟩] hch).2⟩

end Flappy
